import Mathlib

/-!
# LogShort — verification of the gate pipeline, scheduler, bridge and indicators

Shallow embedding of the parts of the LogShort scanner that the checked
claims are about:

* `core/gates.py` — the four-gate pipeline (`check_gate0` … `check_gate3`),
  the V-recovery veto (`check_v_recovery`), trade-level / risk-reward
  computation (`calculate_trade_levels`) and the driver `check_all_gates`;
* `core/math_utils.py` — `clamp`, `range_position`, `dist_to_high_pct`;
* `workers/scanner_worker.py` — the inline range-position / dist-to-high
  recomputation of `PriceUpdateWorker.run`;
* `core/engine_v2.py` — `calculate_volume_spike`, `calculate_z_score`;
* `core/bridge.py` — payload construction, ordering and the write/read
  round trip of `BridgeWriter` / `BridgeReader`;
* `main.py` — the one-second scheduler tick `_tick_all_levels`.

Python floats are modelled as exact rationals (`ℚ`): every operation the
embedded code performs on them (comparison, `+`, `-`, `*`, `/`, `min`,
`max`) is the real-valued operation the source expresses, and none of the
verified properties depends on rounding.  Python string formatting of
numbers (`f"{x:.2f}"` and friends) occurs only inside human-readable
signal strings; it is modelled by `fq`, which renders the exact value.
Statuses keep their source spelling: "ВХОД" = ENTRY, "Готовность" =
READINESS, "Интерес" = INTEREST, "Наблюдение" = OBSERVATION, "" = none.
-/

/-- One OHLCV candle, as the dict `{ts, open, high, low, close, volume,
turnover}` used throughout `core/gates.py` and `core/engine_v2.py`
(the `open` field is written `openp` because `open` is a Lean keyword). -/
structure Candle where
  openp : ℚ
  high : ℚ
  low : ℚ
  close : ℚ
  volume : ℚ
  turnover : ℚ

instance : Inhabited Candle := ⟨⟨0, 0, 0, 0, 0, 0⟩⟩

/-- `core/params_ml.py` `GateParams`: every tunable threshold of the gate
system.  Count-valued fields (`int` in the source) are `ℕ`, thresholds are
`ℚ`, switches are `Bool`. -/
structure GateParams where
  btc_trend_max : ℚ := 0.5
  divergence_min : ℚ := 5.0
  gate0_enabled : Bool := true
  shadow_body_ratio : ℚ := 1.5
  exhaustion_candles : ℕ := 3
  high_tolerance_pct : ℚ := 0.3
  min_exhaustion_signals : ℕ := 2
  gate1_enabled : Bool := true
  range_candles_base : ℕ := 8
  range_candles_hot : ℕ := 14
  range_candles_mid : ℕ := 10
  pump_threshold_hot : ℚ := 30.0
  pump_threshold_mid : ℚ := 15.0
  retest_candles : ℕ := 2
  breakdown_confirm_pct : ℚ := 0.1
  gate2_enabled : Bool := true
  volume_mult : ℚ := 1.3
  volume_lookback : ℕ := 12
  momentum_threshold : ℚ := 0.0
  min_confidence_signals : ℕ := 2
  gate3_enabled : Bool := true
  min_change_24h : ℚ := 8.0
  min_range_position : ℚ := 85.0
  max_dist_to_high : ℚ := 2.0
  min_funding : ℚ := 0.0
  min_turnover_m : ℚ := 10.0
  sl_above_range_pct : ℚ := 0.5
  sl_above_local_high_pct : ℚ := 0.3
  tp1_ratio : ℚ := 0.5
  tp2_ratio : ℚ := 1.0
  tp3_use_low24h : Bool := true
  min_rr : ℚ := 1.5
  v_recovery_candles : ℕ := 2
  signal_ttl_minutes : ℕ := 15
  symbol : String := "DEFAULT"
  version : ℤ := 1

/-- The `GateParams()` dataclass defaults. -/
def defaultParams : GateParams := {}

/-- A value in a gate's `debug` dict (floats, bools, ints, strings). -/
inductive DVal where
  | q : ℚ → DVal
  | b : Bool → DVal
  | i : ℤ → DVal
  | s : String → DVal
deriving DecidableEq

/-- Rendering of a numeric value inside a human-readable signal string.
Python formats these with `f"{x:.2f}"` etc.; the model renders the exact
value.  Only display strings are affected, never a numeric comparison. -/
def fq (x : ℚ) : String := toString x

/-- `core/gates.py` `GateResult`: outcome of one gate. -/
structure GateResult where
  passed : Bool
  score : ℚ := 0
  signals : List String := []
  debug : List (String × DVal) := []

/-- `GateResult(passed=False)` — the default-failed result a never-evaluated
gate keeps in `GatesResult`. -/
def defaultGR : GateResult := { passed := false }

/-- `core/gates.py` `GatesResult`: aggregate outcome of `check_all_gates`. -/
structure GatesResult where
  gate0 : GateResult
  gate1 : GateResult
  gate2 : GateResult
  gate3 : GateResult
  all_passed : Bool := false
  status : String := ""
  signal_text : String := ""
  entry_price : ℚ := 0
  sl_price : ℚ := 0
  tp1_price : ℚ := 0
  tp2_price : ℚ := 0
  tp3_price : ℚ := 0
  rr_ratio : ℚ := 0
  timestamp : ℤ := 0
  symbol : String := ""
  params_version : ℤ := 1

/-- Python `l[-k:]` for a list and `k ≥ 1`: the last `min k (length l)`
elements (`l.drop` saturates exactly like slice clamping). -/
def tailN (k : ℕ) (l : List α) : List α := l.drop (l.length - k)

/-- Python `l[-k:]` including the `k = 0` quirk: `l[-0:]` is `l[0:] = l`. -/
def pySliceLast (k : ℕ) (l : List α) : List α :=
  if k = 0 then l else tailN k l

/-- Python `max` of a list of numbers; the source only evaluates it on
non-empty lists (`0` stands in on the empty list, which in Python raises). -/
def listMax (l : List ℚ) : ℚ :=
  match l with
  | [] => 0
  | x :: xs => xs.foldl max x

/-- Python `min` of a list of numbers; same convention as `listMax`. -/
def listMin (l : List ℚ) : ℚ :=
  match l with
  | [] => 0
  | x :: xs => xs.foldl min x

/-- `core/gates.py` `check_gate0` — Gate 0, market context: passes when BTC
is not rising past `btc_trend_max` OR the alt's 24h divergence from BTC is
at least `divergence_min`. -/
def check_gate0 (btc_trend_1h alt_change_24h btc_change_24h : ℚ)
    (params : GateParams) : GateResult :=
  if ¬ params.gate0_enabled then
    { passed := true, score := 100, signals := ["disabled"] }
  else
    let btc_ok : Bool := btc_trend_1h ≤ params.btc_trend_max
    let divergence := alt_change_24h - btc_change_24h
    let div_ok : Bool := divergence ≥ params.divergence_min
    let signals :=
      (if btc_ok then ["BTC_trend=" ++ fq btc_trend_1h ++ "%<=max"] else []) ++
      (if div_ok then ["divergence=" ++ fq divergence ++ "%"] else [])
    let score : ℚ := (if btc_ok then 50 else 0) + (if div_ok then 50 else 0)
    { passed := btc_ok || div_ok
      score := score
      signals := signals
      debug := [("btc_trend_1h", .q btc_trend_1h),
                ("btc_change_24h", .q btc_change_24h),
                ("alt_change_24h", .q alt_change_24h),
                ("divergence", .q divergence),
                ("btc_ok", .b btc_ok),
                ("div_ok", .b div_ok)] }

/-- `core/gates.py` `check_gate1` — Gate 1, setup / exhaustion at the top:
over the last `exhaustion_candles` candles, at least
`min_exhaustion_signals` of {long upper shadows, flat highs, declining
closes} must hold. -/
def check_gate1 (candles_5m : List Candle) (params : GateParams) : GateResult :=
  if ¬ params.gate1_enabled then
    { passed := true, score := 100, signals := ["disabled"] }
  else if candles_5m.length < params.exhaustion_candles then
    { passed := false, score := 0, signals := ["not_enough_candles"] }
  else
    let recent := pySliceLast params.exhaustion_candles candles_5m
    let exhaustion_count :=
      (recent.filter (fun c =>
        let body := |c.close - c.openp|
        let upper_shadow := c.high - max c.close c.openp
        body > 0 ∧ upper_shadow > body * params.shadow_body_ratio)).length
    let cond1 : Bool := exhaustion_count ≥ 2
    let highs := recent.map (·.high)
    let max_high := listMax highs
    let min_high := listMin highs
    let high_range_pct :=
      if max_high > 0 then (max_high - min_high) / max_high * 100 else 0
    let cond2 : Bool := high_range_pct < params.high_tolerance_pct
    let closes := recent.map (·.close)
    let close_falling : Bool := decide (closes.Chain' (· ≥ ·))
    let close_dropped : Bool := closes.getLast?.getD 0 < closes.headI
    let cond3 : Bool := close_falling || close_dropped
    let conditions_met : ℕ :=
      (if cond1 then 1 else 0) + (if cond2 then 1 else 0) + (if cond3 then 1 else 0)
    { passed := conditions_met ≥ params.min_exhaustion_signals
      score := (conditions_met : ℚ) / 3 * 100
      signals :=
        (if cond1 then ["exhaustion_shadows=" ++ toString exhaustion_count] else []) ++
        (if cond2 then ["high_flat=" ++ fq high_range_pct ++ "%"] else []) ++
        (if cond3 then ["close_declining"] else [])
      debug := [("exhaustion_count", .i exhaustion_count),
                ("high_range_pct", .q high_range_pct),
                ("close_falling", .b close_falling),
                ("close_dropped", .b close_dropped),
                ("conditions_met", .i conditions_met)] }

/-- Return value of `check_gate2` (a Python 3-tuple
`(GateResult, range_low, range_high)`). -/
structure Gate2Return where
  result : GateResult
  range_low : ℚ
  range_high : ℚ

/-- `core/gates.py` `check_gate2` — Gate 2, trigger: adaptive lookback range
from the candles preceding the last two, then a confirmed breakdown close
(previous candle) below the range low with buffer AND a failed-retest close
(last candle) still below the range low. -/
def check_gate2 (candles_5m : List Candle) (change_24h : ℚ)
    (params : GateParams) : Gate2Return :=
  if ¬ params.gate2_enabled then
    ⟨{ passed := true, score := 100, signals := ["disabled"] }, 0, 0⟩
  else
    let n := if change_24h > params.pump_threshold_hot then params.range_candles_hot
             else if change_24h > params.pump_threshold_mid then params.range_candles_mid
             else params.range_candles_base
    if candles_5m.length < n + 2 then
      ⟨{ passed := false, score := 0, signals := ["not_enough_candles"] }, 0, 0⟩
    else
      -- candles_5m[-(n+2):-2] : the n candles before the last two
      let range_candles := tailN n (candles_5m.dropLast.dropLast)
      let range_high := listMax (range_candles.map (·.high))
      let range_low := listMin (range_candles.map (·.low))
      let prev_candle := (candles_5m.dropLast).getLast?.getD default
      let last_candle := candles_5m.getLast?.getD default
      let breakdown_threshold := range_low * (1 - params.breakdown_confirm_pct / 100)
      let breakdown : Bool := prev_candle.close < breakdown_threshold
      let retest_failed : Bool :=
        last_candle.close < range_low ∧ last_candle.high < range_low * 1.005
      ⟨{ passed := breakdown && retest_failed
         score := (if breakdown then 50 else 0) + (if retest_failed then 50 else 0)
         signals :=
           (if breakdown then
             ["breakdown_close=" ++ fq prev_candle.close ++ "<" ++ fq range_low]
            else []) ++
           (if retest_failed then ["retest_failed"] else [])
         debug := [("n_candles", .i n),
                   ("range_high", .q range_high),
                   ("range_low", .q range_low),
                   ("prev_close", .q prev_candle.close),
                   ("last_close", .q last_candle.close),
                   ("last_high", .q last_candle.high),
                   ("breakdown", .b breakdown),
                   ("retest_failed", .b retest_failed)] },
       range_low, range_high⟩

/-- `core/gates.py` `check_gate3` — Gate 3, confidence: at least
`min_confidence_signals` of {momentum not above threshold, breakout volume
at least `median × volume_mult`, positive funding, distance-to-high
increasing}.  A candle's volume falls back to its turnover when it is `0`
(Python `c.get("volume", 0) or c.get("turnover", 0)`). -/
def check_gate3 (candles_5m : List Candle)
    (momentum_10m funding_rate dist_to_high prev_dist_to_high : ℚ)
    (params : GateParams) : GateResult :=
  if ¬ params.gate3_enabled then
    { passed := true, score := 100, signals := ["disabled"] }
  else
    let momentum_ok : Bool := momentum_10m ≤ params.momentum_threshold
    let volPart : ℕ × List String :=
      if candles_5m.length ≥ params.volume_lookback then
        let volumes := (pySliceLast params.volume_lookback candles_5m).map
          (fun c => if c.volume = 0 then c.turnover else c.volume)
        let volumes_sorted := volumes.mergeSort (fun a b => a ≤ b)
        let median_vol := volumes_sorted.getD (volumes_sorted.length / 2) 0
        let last_vol := volumes.getLast?.getD 0
        if last_vol ≥ median_vol * params.volume_mult then
          (1, ["volume=" ++ fq last_vol ++ ">=" ++ fq median_vol ++ "*" ++
               fq params.volume_mult])
        else (0, [])
      else (0, [])
    let funding_ok : Bool := funding_rate > params.min_funding
    let dist_increasing : Bool := dist_to_high > prev_dist_to_high
    let conditions_met : ℕ :=
      (if momentum_ok then 1 else 0) + volPart.1 +
      (if funding_ok then 1 else 0) + (if dist_increasing then 1 else 0)
    { passed := conditions_met ≥ params.min_confidence_signals
      score := (conditions_met : ℚ) / 4 * 100
      signals :=
        (if momentum_ok then ["momentum=" ++ fq momentum_10m ++ "%<=0"] else []) ++
        volPart.2 ++
        (if funding_ok then ["funding=" ++ fq funding_rate ++ ">0"] else []) ++
        (if dist_increasing then
          ["dist_increasing=" ++ fq prev_dist_to_high ++ "->" ++ fq dist_to_high]
         else [])
      debug := [("momentum_10m", .q momentum_10m),
                ("momentum_ok", .b momentum_ok),
                ("funding_rate", .q funding_rate),
                ("funding_ok", .b funding_ok),
                ("dist_to_high", .q dist_to_high),
                ("prev_dist_to_high", .q prev_dist_to_high),
                ("dist_increasing", .b dist_increasing),
                ("conditions_met", .i conditions_met)] }

/-- `core/gates.py` `check_v_recovery` — the V-recovery anti-pattern: some
close among the last `v_recovery_candles` candles before the final one is
below `range_low`, while the final candle closes back above it. -/
def check_v_recovery (candles_5m : List Candle) (range_low : ℚ)
    (params : GateParams) : Bool :=
  if candles_5m.length < params.v_recovery_candles + 1 then false
  else
    let recent := tailN (params.v_recovery_candles + 1) candles_5m
    let was_below := recent.dropLast.any (fun c => c.close < range_low)
    let now_above : Bool := (recent.getLast?.getD default).close > range_low
    was_below && now_above

/-- Return value of `calculate_trade_levels` (a Python 5-tuple). -/
structure TradeLevels where
  sl_price : ℚ
  tp1_price : ℚ
  tp2_price : ℚ
  tp3_price : ℚ
  rr_ratio : ℚ

/-- `core/gates.py` `calculate_trade_levels`: stop above the range high,
TP1 part way to the range low, TP2 at the range low, TP3 at the 24h low if
enabled and lower, and risk-reward `reward / risk` (0 when `risk ≤ 0`). -/
def calculate_trade_levels (entry_price range_low range_high low_24h : ℚ)
    (params : GateParams) : TradeLevels :=
  let sl_price := range_high * (1 + params.sl_above_range_pct / 100)
  let tp1_price := entry_price - (entry_price - range_low) * params.tp1_ratio
  let tp2_price := range_low
  let tp3_price :=
    if params.tp3_use_low24h ∧ low_24h < tp2_price then low_24h
    else tp2_price * 0.99
  let risk := sl_price - entry_price
  let reward := entry_price - tp1_price
  let rr_ratio := if risk > 0 then reward / risk else 0
  ⟨sl_price, tp1_price, tp2_price, tp3_price, rr_ratio⟩

/-- The positional inputs of `check_all_gates` other than the candle list
and the parameter set, bundled for readability. -/
structure GateInputs where
  symbol : String
  current_price : ℚ
  change_24h : ℚ
  range_position : ℚ
  dist_to_high : ℚ
  funding_rate : ℚ
  low_24h : ℚ
  btc_trend_1h : ℚ := 0
  btc_change_24h : ℚ := 0
  momentum_10m : ℚ := 0
  prev_dist_to_high : ℚ := 0

/-- `core/gates.py` `check_all_gates`: the sequential fail-fast driver.
`now` models `int(time.time())`, which the source reads from the system
clock when it builds the initial `GatesResult`. -/
def check_all_gates (inp : GateInputs) (candles_5m : List Candle)
    (params : GateParams) (now : ℤ) : GatesResult :=
  let base : GatesResult :=
    { gate0 := defaultGR, gate1 := defaultGR, gate2 := defaultGR,
      gate3 := defaultGR, timestamp := now, symbol := inp.symbol,
      params_version := params.version }
  let g0 := check_gate0 inp.btc_trend_1h inp.change_24h inp.btc_change_24h params
  let r0 := { base with gate0 := g0 }
  if ¬ g0.passed then
    { r0 with status := "", signal_text := "Контекст не подходит (BTC растёт)" }
  else
    let g1 := check_gate1 candles_5m params
    let r1 := { r0 with gate1 := g1 }
    if ¬ g1.passed then
      if inp.range_position > 70 ∨ inp.change_24h > 8 then
        { r1 with status := "Наблюдение",
                  signal_text := "Рост +" ++ fq inp.change_24h ++ "%, ждём истощение" }
      else r1
    else
      let g2r := check_gate2 candles_5m inp.change_24h params
      let r2 := { r1 with gate2 := g2r.result }
      if ¬ g2r.result.passed then
        if inp.range_position > 80 ∧ inp.change_24h > 10 then
          { r2 with status := "Интерес", signal_text := "Истощение есть, ждём breakdown" }
        else
          { r2 with status := "Наблюдение", signal_text := "Setup готов, нет breakdown" }
      else if check_v_recovery candles_5m g2r.range_low params then
        { r2 with status := "Наблюдение", signal_text := "V-recovery, отмена сигнала" }
      else
        let g3 := check_gate3 candles_5m inp.momentum_10m inp.funding_rate
          inp.dist_to_high inp.prev_dist_to_high params
        let r3 := { r2 with gate3 := g3 }
        if ¬ g3.passed then
          { r3 with status := "Готовность",
                    signal_text := "Breakdown есть, ждём подтверждение" }
        else
          let rall := { r3 with all_passed := true }
          let tl := calculate_trade_levels inp.current_price g2r.range_low
            g2r.range_high inp.low_24h params
          if tl.rr_ratio < params.min_rr then
            { rall with status := "Готовность",
                        signal_text := "R/R=" ++ fq tl.rr_ratio ++ " < " ++
                          fq params.min_rr ++ ", ждём лучший вход" }
          else
            { rall with entry_price := inp.current_price, sl_price := tl.sl_price,
                        tp1_price := tl.tp1_price, tp2_price := tl.tp2_price,
                        tp3_price := tl.tp3_price, rr_ratio := tl.rr_ratio,
                        status := "ВХОД",
                        signal_text := "Breakdown подтверждён, R/R=" ++ fq tl.rr_ratio }

/-- The risk-reward ratio `check_all_gates` computes on its all-gates-passed
path: `calculate_trade_levels` applied to the range returned by Gate 2. -/
def computedRR (inp : GateInputs) (candles_5m : List Candle)
    (params : GateParams) : ℚ :=
  let g2r := check_gate2 candles_5m inp.change_24h params
  (calculate_trade_levels inp.current_price g2r.range_low g2r.range_high
    inp.low_24h params).rr_ratio

/-! ## Fixtures used by the gate-pipeline claims -/

/-- Shorthand for a zero-volume candle `(open, high, low, close)`. -/
def mkC (o h l c : ℚ) : Candle := ⟨o, h, l, c, 0, 0⟩

/-- C1 fixture parameters: defaults, except that the stop sits exactly on
the range high (`sl_above_range_pct = 0`) so that the risk-reward of the
fixture is exactly 1.0 against the default `min_rr = 1.5`. -/
def c1Params : GateParams := { sl_above_range_pct := 0 }

/-- C1 fixture candles: eight range candles spanning 80–110, then a
breakdown close at 79 and a failed-retest close at 79 with exhaustion
shadows. -/
def c1Candles : List Candle :=
  [mkC 100 110 80 100, mkC 100 105 85 100, mkC 100 105 85 100, mkC 100 105 85 100,
   mkC 100 105 85 100, mkC 100 105 85 100, mkC 100 105 85 100, mkC 100 100 90 100,
   mkC 79.5 80.3 78 79, mkC 79.4 80.35 78.5 79]

/-- C1 fixture market inputs: all four gates pass on `c1Candles`. -/
def c1Inp : GateInputs :=
  { symbol := "TESTUSDT", current_price := 100, change_24h := 10,
    range_position := 90, dist_to_high := 0, funding_rate := 0.01,
    low_24h := 75, btc_trend_1h := 0, btc_change_24h := 0,
    momentum_10m := -1, prev_dist_to_high := 0 }

/-- C3 counterexample candles: same range candles as `c1Candles` and the
same breakdown close at 79, but the final candle closes back above the
range low (close 81 > 80) — the V-recovery pattern of the claim. -/
def c3Candles : List Candle :=
  [mkC 100 110 80 100, mkC 100 105 85 100, mkC 100 105 85 100, mkC 100 105 85 100,
   mkC 100 105 85 100, mkC 100 105 85 100, mkC 100 105 85 100, mkC 100 100 90 100,
   mkC 79.5 80.3 78 79, mkC 80.5 82 78.5 81]

/-- C3 counterexample inputs: `change_24h = 12 > 10` and
`range_position = 90 > 80`, so a Gate-2 failure lands in the INTEREST
branch. -/
def c3Inp : GateInputs := { c1Inp with change_24h := 12 }

/-- C3 witness parameters: gates 0–2 disabled, so Gate 2 passes trivially
with `range_low = 0` and the V-recovery check is reachable. -/
def c3VetoParams : GateParams :=
  { gate0_enabled := false, gate1_enabled := false, gate2_enabled := false }

/-- C3 witness candles: two closes below the (degenerate) range low 0 and a
final close back above it. -/
def c3VetoCandles : List Candle :=
  [⟨0, 0, 0, -1, 0, 0⟩, ⟨0, 0, 0, -1, 0, 0⟩, ⟨0, 0, 0, 1, 0, 0⟩]

/-- C10 fixture parameters: Gate 0 disabled, stop exactly on the range
high. -/
def c10Params : GateParams := { gate0_enabled := false, sl_above_range_pct := 0 }

/-- C10 fixture candles: like `c1Candles` but with range high 105, making
the fixture's risk-reward 2.0 ≥ `min_rr`. -/
def c10Candles : List Candle :=
  [mkC 100 105 80 100, mkC 100 105 85 100, mkC 100 105 85 100, mkC 100 105 85 100,
   mkC 100 105 85 100, mkC 100 105 85 100, mkC 100 105 85 100, mkC 100 100 90 100,
   mkC 79.5 80.3 78 79, mkC 79.4 80.35 78.5 79]

/-- C10 fixture inputs: BTC strongly rising (`btc_trend_1h = 10`) and zero
divergence, so both Gate-0 conditions are violated. -/
def c10Inp : GateInputs := { c1Inp with btc_trend_1h := 10, btc_change_24h := 10 }

/-- Neutral inputs used by claims that only need some fixed market input. -/
def zeroInp : GateInputs :=
  { symbol := "XUSDT", current_price := 0, change_24h := 0, range_position := 0,
    dist_to_high := 0, funding_rate := 0, low_24h := 0 }

/-! ## C1 — ENTRY iff all four gates pass and risk-reward meets the minimum -/

/-- C1: for every input to `check_all_gates`, the status is "ВХОД" (ENTRY)
iff all four gate-pass flags of the result are set and the computed
risk-reward is at least `params.min_rr`; and when all four gates pass but
the risk-reward is below the minimum, the status is "Готовность"
(READINESS) instead. -/
theorem C1_entry_iff_all_gates_and_min_rr (inp : GateInputs)
    (candles : List Candle) (params : GateParams) (now : ℤ) :
    ((check_all_gates inp candles params now).status = "ВХОД" ↔
      ((check_all_gates inp candles params now).gate0.passed ∧
       (check_all_gates inp candles params now).gate1.passed ∧
       (check_all_gates inp candles params now).gate2.passed ∧
       (check_all_gates inp candles params now).gate3.passed ∧
       params.min_rr ≤ computedRR inp candles params)) ∧
    (((check_all_gates inp candles params now).gate0.passed ∧
      (check_all_gates inp candles params now).gate1.passed ∧
      (check_all_gates inp candles params now).gate2.passed ∧
      (check_all_gates inp candles params now).gate3.passed ∧
      computedRR inp candles params < params.min_rr) →
      (check_all_gates inp candles params now).status = "Готовность") := by
  simp only [check_all_gates, computedRR]
  split_ifs with h0 h1 h1b h2 h2b hv h3 hrr <;>
    simp_all [defaultGR]
  all_goals decide

/-- C1 witness: on the `c1` fixture all four gates pass, the computed
risk-reward is exactly 1.0 against `min_rr = 1.5`, and the status degrades
to "Готовность" (READINESS). -/
theorem C1_witness :
    (check_all_gates c1Inp c1Candles c1Params 0).gate0.passed ∧
    (check_all_gates c1Inp c1Candles c1Params 0).gate1.passed ∧
    (check_all_gates c1Inp c1Candles c1Params 0).gate2.passed ∧
    (check_all_gates c1Inp c1Candles c1Params 0).gate3.passed ∧
    computedRR c1Inp c1Candles c1Params = 1 ∧ c1Params.min_rr = 3/2 ∧
    (check_all_gates c1Inp c1Candles c1Params 0).status = "Готовность" := by
  have h0 : (check_all_gates c1Inp c1Candles c1Params 0).gate0.passed = true ∧
      (check_all_gates c1Inp c1Candles c1Params 0).gate1.passed = true ∧
      (check_all_gates c1Inp c1Candles c1Params 0).gate2.passed = true ∧
      (check_all_gates c1Inp c1Candles c1Params 0).gate3.passed = true := by
    norm_num [check_all_gates, check_gate0, check_gate1, check_gate2, check_gate3,
      check_v_recovery, calculate_trade_levels, c1Params, c1Inp, c1Candles, mkC,
      pySliceLast, tailN, listMax, listMin, fq, List.filter_cons, List.filter_nil,
      decide_eq_true_eq, abs_of_nonneg, abs_of_nonpos, abs_sub_comm]
  have hrr : computedRR c1Inp c1Candles c1Params = 1 := by
    norm_num [computedRR, check_gate2, calculate_trade_levels, c1Params, c1Inp,
      c1Candles, mkC, tailN, listMax, listMin, fq]
  have hlt : computedRR c1Inp c1Candles c1Params < c1Params.min_rr := by
    rw [hrr]; norm_num [c1Params]
  refine ⟨h0.1, h0.2.1, h0.2.2.1, h0.2.2.2, hrr, by norm_num [c1Params],
    (C1_entry_iff_all_gates_and_min_rr c1Inp c1Candles c1Params 0).2
      ⟨h0.1, h0.2.1, h0.2.2.1, h0.2.2.2, hlt⟩⟩

/-! ## C2 — fail-fast: a failing gate leaves later gates default-failed -/

/-- C2: `check_all_gates` is fail-fast — whichever gate fails first, all
later gates are left as the default-failed `defaultGR` (never evaluated)
and the status is exactly the one assigned by that gate's failure branch:
Gate 0 → "" (none); Gate 1 → "Наблюдение" when extended else ""; Gate 2 →
"Интерес" when advanced else "Наблюдение"; Gate 3 (reached only without a
V-recovery veto) → "Готовность". -/
theorem C2_fail_fast (inp : GateInputs) (candles : List Candle)
    (params : GateParams) (now : ℤ) :
    (¬ (check_gate0 inp.btc_trend_1h inp.change_24h inp.btc_change_24h params).passed →
      (check_all_gates inp candles params now).gate1 = defaultGR ∧
      (check_all_gates inp candles params now).gate2 = defaultGR ∧
      (check_all_gates inp candles params now).gate3 = defaultGR ∧
      (check_all_gates inp candles params now).status = "" ∧
      (check_all_gates inp candles params now).all_passed = false) ∧
    ((check_gate0 inp.btc_trend_1h inp.change_24h inp.btc_change_24h params).passed →
     ¬ (check_gate1 candles params).passed →
      (check_all_gates inp candles params now).gate2 = defaultGR ∧
      (check_all_gates inp candles params now).gate3 = defaultGR ∧
      (check_all_gates inp candles params now).status =
        (if inp.range_position > 70 ∨ inp.change_24h > 8 then "Наблюдение" else "") ∧
      (check_all_gates inp candles params now).all_passed = false) ∧
    ((check_gate0 inp.btc_trend_1h inp.change_24h inp.btc_change_24h params).passed →
     (check_gate1 candles params).passed →
     ¬ (check_gate2 candles inp.change_24h params).result.passed →
      (check_all_gates inp candles params now).gate3 = defaultGR ∧
      (check_all_gates inp candles params now).status =
        (if inp.range_position > 80 ∧ inp.change_24h > 10 then "Интерес" else "Наблюдение") ∧
      (check_all_gates inp candles params now).all_passed = false) ∧
    ((check_gate0 inp.btc_trend_1h inp.change_24h inp.btc_change_24h params).passed →
     (check_gate1 candles params).passed →
     (check_gate2 candles inp.change_24h params).result.passed →
     ¬ check_v_recovery candles (check_gate2 candles inp.change_24h params).range_low params →
     ¬ (check_gate3 candles inp.momentum_10m inp.funding_rate inp.dist_to_high
          inp.prev_dist_to_high params).passed →
      (check_all_gates inp candles params now).status = "Готовность" ∧
      (check_all_gates inp candles params now).all_passed = false) := by
  simp only [check_all_gates]
  split_ifs with h0 h1 h1b h2 h2b hv h3 hrr <;> simp_all [defaultGR]

/-- C2 witness: with a parameter set whose Gate 0 cannot pass
(`btc_trend_max = -1` and zero divergence), gates 1–3 come back
default-failed and the status is the Gate-0 failure status "". -/
theorem C2_witness :
    ¬ (check_gate0 zeroInp.btc_trend_1h zeroInp.change_24h zeroInp.btc_change_24h
        { defaultParams with btc_trend_max := -1, divergence_min := 5 }).passed ∧
    (check_all_gates zeroInp [] { defaultParams with btc_trend_max := -1, divergence_min := 5 } 0).gate1 = defaultGR ∧
    (check_all_gates zeroInp [] { defaultParams with btc_trend_max := -1, divergence_min := 5 } 0).gate2 = defaultGR ∧
    (check_all_gates zeroInp [] { defaultParams with btc_trend_max := -1, divergence_min := 5 } 0).gate3 = defaultGR ∧
    (check_all_gates zeroInp [] { defaultParams with btc_trend_max := -1, divergence_min := 5 } 0).status = "" := by
  have hfail : ¬ (check_gate0 zeroInp.btc_trend_1h zeroInp.change_24h zeroInp.btc_change_24h
      { defaultParams with btc_trend_max := -1, divergence_min := 5 }).passed := by
    norm_num [check_gate0, zeroInp, defaultParams, fq]
  have h := (C2_fail_fast zeroInp []
    { defaultParams with btc_trend_max := -1, divergence_min := 5 } 0).1 hfail
  exact ⟨hfail, h.1, h.2.1, h.2.2.1, h.2.2.2.1⟩

/-! ## C3 — the V-recovery veto sits after Gate 2, not between Gates 1 and 2 -/

/-- C3 counterexample: on `c3Candles` the V-recovery pattern of the claim
holds (a close at 79 below the Gate-2 range low 80 among the last
`v_recovery_candles` candles before the final one, final close 81 back
above it), yet `check_all_gates` returns "Интерес" (INTEREST), not the
"Наблюдение" (OBSERVATION) the claim says the veto forces: the veto is
only checked after Gate 2 passes, and this input fails Gate 2's retest. -/
theorem C3_counterexample :
    check_v_recovery c3Candles
      (check_gate2 c3Candles c3Inp.change_24h defaultParams).range_low defaultParams = true ∧
    (check_gate2 c3Candles c3Inp.change_24h defaultParams).range_low = 80 ∧
    (check_all_gates c3Inp c3Candles defaultParams 0).status = "Интерес" ∧
    (check_all_gates c3Inp c3Candles defaultParams 0).status ≠ "Наблюдение" := by
  refine ⟨?_, ?_, ?_, ?_⟩ <;>
    norm_num [check_all_gates, check_gate0, check_gate1, check_gate2, check_gate3,
      check_v_recovery, c3Inp, c1Inp, c3Candles, defaultParams, mkC,
      pySliceLast, tailN, listMax, listMin, fq, List.filter_cons, List.filter_nil,
      decide_eq_true_eq, abs_of_nonneg, abs_of_nonpos, abs_sub_comm]
  decide

/-- C3 (amended): the V-recovery veto is applied between Gate 2 and Gate 3
— whenever Gates 0–2 pass and `check_v_recovery` detects the pattern
against Gate 2's range low, the status is forced to "Наблюдение"
(OBSERVATION) and evaluation aborts with Gate 3 left unevaluated
(default-failed), overriding any otherwise-passing Gate 3 result. -/
theorem C3_veto_forces_observation (inp : GateInputs) (candles : List Candle)
    (params : GateParams) (now : ℤ)
    (h0 : (check_gate0 inp.btc_trend_1h inp.change_24h inp.btc_change_24h params).passed)
    (h1 : (check_gate1 candles params).passed)
    (h2 : (check_gate2 candles inp.change_24h params).result.passed)
    (hv : check_v_recovery candles
      (check_gate2 candles inp.change_24h params).range_low params = true) :
    (check_all_gates inp candles params now).status = "Наблюдение" ∧
    (check_all_gates inp candles params now).gate3 = defaultGR ∧
    (check_all_gates inp candles params now).all_passed = false := by
  simp only [check_all_gates]
  split_ifs
  all_goals simp_all [defaultGR]

/-- C3 witness: a concrete input reaching the veto (Gate 2 passes in its
disabled branch with a degenerate range low of 0, closes dip below and
recover above it): the status is forced to "Наблюдение" and Gate 3 stays
default-failed. -/
theorem C3_witness :
    (check_gate2 c3VetoCandles zeroInp.change_24h c3VetoParams).result.passed ∧
    check_v_recovery c3VetoCandles
      (check_gate2 c3VetoCandles zeroInp.change_24h c3VetoParams).range_low c3VetoParams = true ∧
    (check_all_gates zeroInp c3VetoCandles c3VetoParams 0).status = "Наблюдение" ∧
    (check_all_gates zeroInp c3VetoCandles c3VetoParams 0).gate3 = defaultGR := by
  have h0 : (check_gate0 zeroInp.btc_trend_1h zeroInp.change_24h zeroInp.btc_change_24h
      c3VetoParams).passed := by norm_num [check_gate0, c3VetoParams, zeroInp]
  have h1 : (check_gate1 c3VetoCandles c3VetoParams).passed := by
    norm_num [check_gate1, c3VetoParams, c3VetoCandles]
  have h2 : (check_gate2 c3VetoCandles zeroInp.change_24h c3VetoParams).result.passed := by
    norm_num [check_gate2, c3VetoParams, zeroInp]
  have hv : check_v_recovery c3VetoCandles
      (check_gate2 c3VetoCandles zeroInp.change_24h c3VetoParams).range_low c3VetoParams = true := by
    norm_num [check_v_recovery, check_gate2, c3VetoParams, c3VetoCandles, zeroInp, tailN]
  have h := C3_veto_forces_observation zeroInp c3VetoCandles c3VetoParams 0 h0 h1 h2 hv
  exact ⟨h2, hv, h.1, h.2.1⟩

/-! ## C4 — determinism up to the internally-read clock -/

/-- C4 counterexample: `check_all_gates` reads `time.time()` internally
(modelled by `now`), so two calls with identical symbol, candles, metrics
and parameters but different clock readings return `GatesResult` values
that differ (in the `timestamp` field) — the claim's "identical in every
field" fails, and there is no explicitly passed "now" in the source
signature. -/
theorem C4_counterexample :
    check_all_gates zeroInp [] defaultParams 0 ≠ check_all_gates zeroInp [] defaultParams 1 ∧
    (check_all_gates zeroInp [] defaultParams 0).timestamp = 0 ∧
    (check_all_gates zeroInp [] defaultParams 1).timestamp = 1 := by
  have ht : ∀ n : ℤ, (check_all_gates zeroInp [] defaultParams n).timestamp = n := by
    intro n
    simp only [check_all_gates]
    split_ifs <;> rfl
  refine ⟨fun h => ?_, ht 0, ht 1⟩
  have := congrArg GatesResult.timestamp h
  rw [ht 0, ht 1] at this
  exact absurd this (by decide)

/-- C4 (amended): `check_all_gates` is deterministic in every field except
`timestamp`, which it takes from the system clock at call time: the
results of two calls with the same inputs differ at most by `timestamp`,
and calls under an identical clock reading are fully identical. -/
theorem C4_deterministic_except_timestamp (inp : GateInputs)
    (candles : List Candle) (params : GateParams) (n1 n2 : ℤ) :
    (check_all_gates inp candles params n1 =
      { check_all_gates inp candles params n2 with timestamp := n1 }) ∧
    (n1 = n2 →
      check_all_gates inp candles params n1 = check_all_gates inp candles params n2) := by
  constructor
  · simp only [check_all_gates]
    split_ifs <;> rfl
  · rintro rfl
    rfl

/-- C4 witness: at the same clock reading the two calls agree exactly. -/
theorem C4_witness :
    check_all_gates zeroInp [] defaultParams 5 = check_all_gates zeroInp [] defaultParams 5 ∧
    (5 : ℤ) = 5 :=
  ⟨(C4_deterministic_except_timestamp zeroInp [] defaultParams 5 5).2 rfl, rfl⟩

/-! ## C10 — a disabled gate always passes with score 100 -/

/-- C10: whenever a gate's enabled flag is false, its check returns
`passed = true` with score 100 (signal "disabled") regardless of market
inputs; and ENTRY is reachable without that gate's conditions holding —
on the `c10` fixture Gate 0 is disabled, both its conditions are violated
(BTC trend above the cap, divergence below the minimum), yet the status is
"ВХОД". -/
theorem C10_disabled_gate_passes :
    (∀ (b a c : ℚ) (p : GateParams), p.gate0_enabled = false →
      check_gate0 b a c p = { passed := true, score := 100, signals := ["disabled"] }) ∧
    (∀ (l : List Candle) (p : GateParams), p.gate1_enabled = false →
      check_gate1 l p = { passed := true, score := 100, signals := ["disabled"] }) ∧
    (∀ (l : List Candle) (ch : ℚ) (p : GateParams), p.gate2_enabled = false →
      check_gate2 l ch p =
        ⟨{ passed := true, score := 100, signals := ["disabled"] }, 0, 0⟩) ∧
    (∀ (l : List Candle) (m f d pd : ℚ) (p : GateParams), p.gate3_enabled = false →
      check_gate3 l m f d pd p = { passed := true, score := 100, signals := ["disabled"] }) ∧
    (c10Params.gate0_enabled = false ∧
     c10Inp.btc_trend_1h > c10Params.btc_trend_max ∧
     c10Inp.change_24h - c10Inp.btc_change_24h < c10Params.divergence_min ∧
     (check_all_gates c10Inp c10Candles c10Params 0).status = "ВХОД") := by
  refine ⟨fun b a c p h => by simp [check_gate0, h],
          fun l p h => by simp [check_gate1, h],
          fun l ch p h => by simp [check_gate2, h],
          fun l m f d pd p h => by simp [check_gate3, h],
          by norm_num [c10Params, c10Inp, c1Inp],
          by norm_num [c10Params, c10Inp, c1Inp],
          by norm_num [c10Params, c10Inp, c1Inp],
          ?_⟩
  norm_num [check_all_gates, check_gate0, check_gate1, check_gate2, check_gate3,
    check_v_recovery, calculate_trade_levels, c10Params, c10Inp, c1Inp, c10Candles, mkC,
    pySliceLast, tailN, listMax, listMin, fq, List.filter_cons, List.filter_nil,
    decide_eq_true_eq, abs_of_nonneg, abs_of_nonpos, abs_sub_comm]

/-- C10 witness: each disabled-gate equation instantiated at a concrete
parameter set with the gate switched off. -/
theorem C10_witness :
    check_gate0 0 0 0 { defaultParams with gate0_enabled := false } =
      { passed := true, score := 100, signals := ["disabled"] } ∧
    check_gate1 [] { defaultParams with gate1_enabled := false } =
      { passed := true, score := 100, signals := ["disabled"] } ∧
    check_gate2 [] 0 { defaultParams with gate2_enabled := false } =
      ⟨{ passed := true, score := 100, signals := ["disabled"] }, 0, 0⟩ ∧
    check_gate3 [] 0 0 0 0 { defaultParams with gate3_enabled := false } =
      { passed := true, score := 100, signals := ["disabled"] } :=
  ⟨C10_disabled_gate_passes.1 0 0 0 _ rfl,
   C10_disabled_gate_passes.2.1 [] _ rfl,
   C10_disabled_gate_passes.2.2.1 [] 0 _ rfl,
   C10_disabled_gate_passes.2.2.2.1 [] 0 0 0 0 _ rfl⟩

/-! ## Embedding of `core/math_utils.py` and the price-update worker -/

/-- `core/math_utils.py` `clamp`. -/
def clamp (x lo hi : ℚ) : ℚ := max lo (min hi x)

/-- `core/math_utils.py` `range_position`: position of the price in the
`low`–`high` range, clamped to 0–100, with 50 when `high ≤ low`. -/
def range_position (price low high : ℚ) : ℚ :=
  if high ≤ low then 50
  else clamp ((price - low) / (high - low) * 100) 0 100

/-- `core/math_utils.py` `dist_to_high_pct`: distance to the high as a
percentage of the price (0 when the price is not positive). -/
def dist_to_high_pct (price high : ℚ) : ℚ :=
  if price ≤ 0 then 0 else (high - price) / price * 100

/-- `workers/scanner_worker.py` `PriceUpdateWorker.run`, line 442-443: the
inline (unclamped) recomputation of `row.range_position`; when
`high_24h ≤ low_24h` the old field value is kept. -/
def workerRangePosition (price_now low_24h high_24h old : ℚ) : ℚ :=
  if high_24h > low_24h then (price_now - low_24h) / (high_24h - low_24h) * 100
  else old

/-- `workers/scanner_worker.py` `PriceUpdateWorker.run`, line 444-445: the
inline recomputation of `row.dist_high_pct` (relative to the high, not the
price); when `high_24h ≤ 0` the old field value is kept. -/
def workerDistHighPct (price_now high_24h old : ℚ) : ℚ :=
  if high_24h > 0 then (high_24h - price_now) / high_24h * 100
  else old

/-! ## C5 — range-position bounds and non-negative distance-to-high -/

/-- C5 counterexample: a snapshot with `price = 110`, `high24h = 100 > 0`,
`low24h = 90` — the price above the (stale) 24h high.  The worker's
recomputed range-position is 200, above the claimed bound of 100, and both
distance-to-high computations are negative, refuting `dist-to-high ≥ 0`. -/
theorem C5_counterexample :
    workerRangePosition 110 90 100 50 = 200 ∧
    workerDistHighPct 110 100 0 = -10 ∧
    dist_to_high_pct 110 100 = -100/11 ∧
    ((100:ℚ) > 0 ∧ workerRangePosition 110 90 100 50 > 100 ∧
      workerDistHighPct 110 100 0 < 0 ∧ dist_to_high_pct 110 100 < 0) := by
  norm_num [workerRangePosition, workerDistHighPct, dist_to_high_pct]

/-- C5 (amended): `math_utils.range_position` always lies in [0, 100] and
returns 50 when `high ≤ low`; the worker's inline recomputation of
range-position is unclamped and lies in [0, 100] only when
`low24h ≤ price ≤ high24h` (with `high24h > low24h`); and the
distance-to-high percent is non-negative only under the additional
hypothesis `price ≤ high24h` (for the `math_utils` variant also
`0 < price`). -/
theorem C5_range_position_bounds :
    (∀ price low high : ℚ,
      0 ≤ range_position price low high ∧ range_position price low high ≤ 100) ∧
    (∀ price low high : ℚ, high ≤ low → range_position price low high = 50) ∧
    (∀ price high : ℚ, 0 < price → price ≤ high → 0 ≤ dist_to_high_pct price high) ∧
    (∀ price low high old : ℚ, low ≤ price → price ≤ high → low < high →
      0 ≤ workerRangePosition price low high old ∧
      workerRangePosition price low high old ≤ 100) ∧
    (∀ price high old : ℚ, 0 < high → price ≤ high →
      0 ≤ workerDistHighPct price high old) := by
  refine ⟨fun price low high => ?_, fun price low high h => by simp [range_position, h],
          fun price high hp hh => ?_, fun price low high old h1 h2 h3 => ?_,
          fun price high old h0 hh => ?_⟩
  · unfold range_position clamp
    split_ifs with h
    · norm_num
    · constructor
      · exact le_max_left 0 _
      · exact max_le (by norm_num) (min_le_left _ _)
  · unfold dist_to_high_pct
    rw [if_neg (not_le.mpr hp)]
    have : (0:ℚ) ≤ (high - price) / price :=
      div_nonneg (by linarith) (le_of_lt hp)
    linarith
  · unfold workerRangePosition
    rw [if_pos h3]
    have hd : (0:ℚ) < high - low := by linarith
    constructor
    · have : (0:ℚ) ≤ (price - low) / (high - low) :=
        div_nonneg (by linarith) (le_of_lt hd)
      linarith
    · have h4 : (price - low) / (high - low) ≤ 1 := by
        rw [div_le_one hd]; linarith
      calc (price - low) / (high - low) * 100 ≤ 1 * 100 := by linarith
        _ = 100 := by norm_num
  · unfold workerDistHighPct
    rw [if_pos h0]
    have : (0:ℚ) ≤ (high - price) / high :=
      div_nonneg (by linarith) (le_of_lt h0)
    linarith

/-- C5 witness: the amended bounds at the spec's own example snapshot
(price 100, high 110, low 90): range-position 50 and a positive
distance-to-high. -/
theorem C5_witness :
    (0 ≤ range_position 100 90 110 ∧ range_position 100 90 110 ≤ 100) ∧
    range_position 100 110 110 = 50 ∧
    0 ≤ dist_to_high_pct 100 110 ∧
    (0 ≤ workerRangePosition 100 90 110 0 ∧ workerRangePosition 100 90 110 0 ≤ 100) ∧
    0 ≤ workerDistHighPct 100 110 0 :=
  ⟨C5_range_position_bounds.1 100 90 110,
   C5_range_position_bounds.2.1 100 110 110 (by norm_num),
   C5_range_position_bounds.2.2.1 100 110 (by norm_num) (by norm_num),
   C5_range_position_bounds.2.2.2.1 100 90 110 0 (by norm_num) (by norm_num) (by norm_num),
   C5_range_position_bounds.2.2.2.2 100 110 0 (by norm_num) (by norm_num)⟩

/-! ## Embedding of `core/engine_v2.py` indicator formulas -/

/-- `core/engine_v2.py` `calculate_volume_spike`: current bar volume over
the mean volume of the preceding window (`klines[-lookback-1:-1]` when
there are more than `lookback` candles, else all but the last), returning
the neutral default 1.0 on insufficient history or a non-positive mean. -/
def calculate_volume_spike (klines : List Candle) (lookback : ℕ) : ℚ :=
  if klines.length < 2 then 1
  else
    let current_volume := (klines.getLast?.getD default).volume
    let history :=
      if klines.length > lookback then tailN lookback klines.dropLast
      else klines.dropLast
    if history.isEmpty then 1
    else
      let avg_volume := (history.map (·.volume)).sum / history.length
      if avg_volume > 0 then current_volume / avg_volume else 1

/-- The sample mean of the last `period` closes used by
`calculate_z_score` (`prices[-period:]`, with Python's `[-0:]` quirk). -/
def zMean (prices : List ℚ) (period : ℕ) : ℚ :=
  let sample := pySliceLast period prices
  sample.sum / sample.length

/-- The population variance of the last `period` closes used by
`calculate_z_score`. -/
def zVariance (prices : List ℚ) (period : ℕ) : ℚ :=
  let sample := pySliceLast period prices
  (sample.map (fun x => (x - zMean prices period) ^ 2)).sum / sample.length

/-- The standard deviation variable of `calculate_z_score`:
`math.sqrt(variance) if variance > 0 else 0.0`.  `sqrtFn` stands for the
(strictly external) float `math.sqrt`; every property proved below holds
for an arbitrary `sqrtFn`. -/
def zStd (sqrtFn : ℚ → ℚ) (prices : List ℚ) (period : ℕ) : ℚ :=
  if zVariance prices period > 0 then sqrtFn (zVariance prices period) else 0

/-- `core/engine_v2.py` `calculate_z_score`: `(price − mean) / std` over
the last `period` closes, returning 0 when the history is shorter than
`period` (or empty) or when the standard deviation is 0. -/
def calculate_z_score (sqrtFn : ℚ → ℚ) (current_price : ℚ)
    (prices : List ℚ) (period : ℕ) : ℚ :=
  if prices = [] ∨ prices.length < period then 0
  else if zStd sqrtFn prices period > 0 then
    (current_price - zMean prices period) / zStd sqrtFn prices period
  else 0

/-! ## C9 — indicators degrade to neutral defaults -/

/-- C9: indicator formulas degrade gracefully — `calculate_volume_spike`
returns the neutral default 1.0 whenever there are fewer than two candles
(and also on an empty preceding window or non-positive mean volume), and
`calculate_z_score` returns 0 whenever the history is shorter than the
period (or empty) or the standard deviation is 0, for any model of the
external `math.sqrt`. -/
theorem C9_indicators_degrade_gracefully :
    (∀ (klines : List Candle) (lookback : ℕ), klines.length < 2 →
      calculate_volume_spike klines lookback = 1) ∧
    (∀ (sqrtFn : ℚ → ℚ) (current : ℚ) (prices : List ℚ) (period : ℕ),
      prices = [] ∨ prices.length < period →
      calculate_z_score sqrtFn current prices period = 0) ∧
    (∀ (sqrtFn : ℚ → ℚ) (current : ℚ) (prices : List ℚ) (period : ℕ),
      zStd sqrtFn prices period = 0 →
      calculate_z_score sqrtFn current prices period = 0) := by
  refine ⟨fun klines lookback h => ?_, fun sqrtFn current prices period h => ?_,
          fun sqrtFn current prices period h => ?_⟩
  · simp [calculate_volume_spike, h]
  · simp [calculate_z_score, h]
  · unfold calculate_z_score
    rw [h]
    simp

/-- C9 witness: one-candle history gives volume spike 1.0; a too-short
price history gives z-score 0; a constant price history (variance 0, so
standard deviation 0) gives z-score 0. -/
theorem C9_witness :
    calculate_volume_spike [⟨0, 0, 0, 0, 7, 0⟩] 20 = 1 ∧
    calculate_z_score (fun x => x) 5 [1, 2] 20 = 0 ∧
    zStd (fun x => x) [3, 3, 3] 3 = 0 ∧
    calculate_z_score (fun x => x) 5 [3, 3, 3] 3 = 0 := by
  have h1 : calculate_volume_spike [⟨0, 0, 0, 0, 7, 0⟩] 20 = 1 :=
    C9_indicators_degrade_gracefully.1 _ 20 (by norm_num)
  have h2 : calculate_z_score (fun x => x) 5 [1, 2] 20 = 0 :=
    C9_indicators_degrade_gracefully.2.1 _ 5 [1, 2] 20 (Or.inr (by norm_num))
  have hstd : zStd (fun x => x) [3, 3, 3] 3 = 0 := by
    have hv : zVariance [3, 3, 3] 3 = 0 := by
      norm_num [zVariance, zMean, pySliceLast, tailN]
    simp [zStd, hv]
  have h3 : calculate_z_score (fun x => x) 5 [3, 3, 3] 3 = 0 :=
    C9_indicators_degrade_gracefully.2.2 _ 5 [3, 3, 3] 3 hstd
  exact ⟨h1, h2, hstd, h3⟩

/-! ## Embedding of `core/types.py` `CoinRow` and `core/bridge.py` -/

/-- `core/types.py` `CoinRow`: the per-coin record, with the dataclass
defaults. -/
structure CoinRow where
  symbol : String := ""
  price_now : ℚ := 0
  high_24h : ℚ := 0
  low_24h : ℚ := 0
  change_24h_pct : ℚ := 0
  vol24_m : ℤ := 0
  funding_rate : ℚ := 0
  range_position : ℚ := 0
  dist_high_pct : ℚ := 0
  trend_1h_ppm : ℚ := 0
  trend_3h_ppm : ℚ := 0
  trend_24h_ppm : ℚ := 0
  vol_ratio_5m_1h : ℚ := 0
  vol_ratio_15m_3h : ℚ := 0
  volume_score : ℚ := 0
  structure_score : ℚ := 0
  exhaustion : ℚ := 0
  btc_div_1h : ℚ := 0
  btc_price : ℚ := 0
  btc_change_24h : ℚ := 0
  short_prob : ℚ := 0
  short_conf : ℚ := 0
  candidate_pct : ℚ := 0
  entry_price : ℚ := 0
  sl_price : ℚ := 0
  tp1 : ℚ := 0
  tp2 : ℚ := 0
  tp3 : ℚ := 0
  rr : ℚ := 0
  status : String := ""
  watch_type : String := ""
  signal : String := ""
  score : ℚ := 0
  gate0_passed : Bool := false
  gate1_passed : Bool := false
  gate2_passed : Bool := false
  gate3_passed : Bool := false
  gates_signal : String := ""
  top_rank : ℤ := 0
  grade : String := ""
  valid : Bool := true
  last_update : ℚ := 0
  added_at : ℚ := 0

/-- A `CoinRow()` with every field at its dataclass default. -/
def defaultCoinRow : CoinRow := {}

/-- The per-instrument summary dict built by
`core/bridge.py` `BridgeWriter._row_to_dict`; field names are exactly the
JSON keys the source writes. -/
structure Item where
  symbol : String
  status : String
  score : ℚ
  watch_type : String
  signal : String
  price_now : ℚ
  high_24h : ℚ
  low_24h : ℚ
  change_24h_pct : ℚ
  vol24h_m : ℤ
  range_position : ℚ
  dist_high_pct : ℚ
  entry : ℚ
  sl : ℚ
  tp1 : ℚ
  tp2 : ℚ
  rr : ℚ
  short_prob : ℚ
  short_conf : ℚ
  candidate_pct : ℚ
  gate0_passed : Bool
  gate1_passed : Bool
  gate2_passed : Bool
  gate3_passed : Bool
  grade : String

/-- `BridgeWriter._row_to_dict`: projection of a `CoinRow` onto the
published summary (the signal text truncated to 100 characters). -/
def rowToDict (row : CoinRow) : Item :=
  { symbol := row.symbol
    status := row.status
    score := row.score
    watch_type := row.watch_type
    signal := row.signal.take 100
    price_now := row.price_now
    high_24h := row.high_24h
    low_24h := row.low_24h
    change_24h_pct := row.change_24h_pct
    vol24h_m := row.vol24_m
    range_position := row.range_position
    dist_high_pct := row.dist_high_pct
    entry := row.entry_price
    sl := row.sl_price
    tp1 := row.tp1
    tp2 := row.tp2
    rr := row.rr
    short_prob := row.short_prob
    short_conf := row.short_conf
    candidate_pct := row.candidate_pct
    gate0_passed := row.gate0_passed
    gate1_passed := row.gate1_passed
    gate2_passed := row.gate2_passed
    gate3_passed := row.gate3_passed
    grade := row.grade }

/-- `BridgeWriter.write`'s `status_priority` dict with its `.get(_, 99)`
default. -/
def statusPriority (s : String) : ℕ :=
  if s = "ВХОД" then 0
  else if s = "Готовность" then 1
  else if s = "Интерес" then 2
  else if s = "Наблюдение" then 3
  else if s = "" then 4
  else 99

/-- The total preorder underlying `items.sort(key=lambda x:
(status_priority.get(x["status"], 99), -x["score"]))`: ascending status
priority, then descending score.  Python's `list.sort` is stable, and a
stable sort for this preorder is unique, so `List.mergeSort` below
reproduces it exactly. -/
def itemLe (a b : Item) : Bool :=
  decide (statusPriority a.status < statusPriority b.status) ||
  (decide (statusPriority a.status = statusPriority b.status) && decide (b.score ≤ a.score))

/-- `BridgeWriter.write`, filter + conversion step: rows (in dict
insertion order) with `valid` set, converted by `_row_to_dict`. -/
def bridgeEligibleItems (rows : List (String × CoinRow)) : List Item :=
  (rows.filter (fun p => p.2.valid)).map (fun p => rowToDict p.2)

/-- `BridgeWriter.write`, sorting step (`items.sort(key=...)`). -/
def bridgeSortedItems (rows : List (String × CoinRow)) : List Item :=
  (bridgeEligibleItems rows).mergeSort itemLe

/-- `BridgeWriter.write`, truncation step (`items[:top_n]`): the published
top-N list. -/
def bridgeItems (rows : List (String × CoinRow)) (top_n : ℕ) : List Item :=
  (bridgeSortedItems rows).take top_n

/-- A JSON value, as produced by `json.dump` / consumed by `json.load`
(Python keeps `int` and `float` distinct through a round trip, and object
key order is dict insertion order). -/
inductive JVal where
  | jstr : String → JVal
  | jint : ℤ → JVal
  | jnum : ℚ → JVal
  | jbool : Bool → JVal
  | jarr : List JVal → JVal
  | jobj : List (String × JVal) → JVal

/-- The JSON object for one item, with the exact keys and value types
`_row_to_dict` produces. -/
def itemToJson (it : Item) : List (String × JVal) :=
  [("symbol", .jstr it.symbol), ("status", .jstr it.status),
   ("score", .jnum it.score), ("watch_type", .jstr it.watch_type),
   ("signal", .jstr it.signal), ("price_now", .jnum it.price_now),
   ("high_24h", .jnum it.high_24h), ("low_24h", .jnum it.low_24h),
   ("change_24h_pct", .jnum it.change_24h_pct), ("vol24h_m", .jint it.vol24h_m),
   ("range_position", .jnum it.range_position),
   ("dist_high_pct", .jnum it.dist_high_pct), ("entry", .jnum it.entry),
   ("sl", .jnum it.sl), ("tp1", .jnum it.tp1), ("tp2", .jnum it.tp2),
   ("rr", .jnum it.rr), ("short_prob", .jnum it.short_prob),
   ("short_conf", .jnum it.short_conf), ("candidate_pct", .jnum it.candidate_pct),
   ("gate0_passed", .jbool it.gate0_passed), ("gate1_passed", .jbool it.gate1_passed),
   ("gate2_passed", .jbool it.gate2_passed), ("gate3_passed", .jbool it.gate3_passed),
   ("grade", .jstr it.grade)]

/-- `BridgeWriter.write`'s `payload` dict, in source key order.  Note the
version key is spelled `bridge_version` and `top_n` holds the number of
items actually published (`len(items)` after truncation). -/
def bridgePayload (rows : List (String × CoinRow)) (top_n : ℕ)
    (strategy_name : String) (ts : ℤ) : List (String × JVal) :=
  let items := bridgeItems rows top_n
  [("ts", .jint ts),
   ("bridge_version", .jstr "2.0"),
   ("strategy", .jstr strategy_name),
   ("top_n", .jint items.length),
   ("items", .jarr (items.map (fun it => .jobj (itemToJson it))))]

/-- `BridgeWriter.write` + `_atomic_write`: the bridge file after a
successful write holds exactly the serialized payload (temp file renamed
over the canonical path).  `json.dump`/`json.load` are external and
lossless on these payloads, so the file is modelled by the JSON value it
holds. -/
def bridgeWrite (rows : List (String × CoinRow)) (top_n : ℕ)
    (strategy_name : String) (ts : ℤ) : Option (List (String × JVal)) :=
  some (bridgePayload rows top_n strategy_name ts)

/-- `BridgeReader.read`: parse the canonical file, `None` when absent. -/
def bridgeRead (file : Option (List (String × JVal))) :
    Option (List (String × JVal)) :=
  file

/-- The parsed form of a bridge snapshot, for the field-for-field
round-trip comparison. -/
structure BridgeSnapshot where
  ts : ℤ
  bridge_version : String
  strategy : String
  top_n : ℤ
  items : List Item

/-- Expect a JSON string. -/
def jStr : Option JVal → Option String
  | some (.jstr s) => some s
  | _ => none

/-- Expect a JSON integer. -/
def jInt : Option JVal → Option ℤ
  | some (.jint n) => some n
  | _ => none

/-- Expect a JSON float. -/
def jNum : Option JVal → Option ℚ
  | some (.jnum q) => some q
  | _ => none

/-- Expect a JSON boolean. -/
def jBool : Option JVal → Option Bool
  | some (.jbool b) => some b
  | _ => none

/-- Expect a JSON array. -/
def jArr : Option JVal → Option (List JVal)
  | some (.jarr l) => some l
  | _ => none

/-- Parse the identification fields of one published item. -/
def decodeItemHead (f : List (String × JVal)) :
    Option (String × String × ℚ × String × String) := do
  let symbol ← jStr (f.lookup "symbol")
  let status ← jStr (f.lookup "status")
  let score ← jNum (f.lookup "score")
  let watch_type ← jStr (f.lookup "watch_type")
  let signal ← jStr (f.lookup "signal")
  pure (symbol, status, score, watch_type, signal)

/-- Parse the market-data and position fields of one published item. -/
def decodeItemMarket (f : List (String × JVal)) :
    Option (ℚ × ℚ × ℚ × ℚ × ℤ × ℚ × ℚ) := do
  let price_now ← jNum (f.lookup "price_now")
  let high_24h ← jNum (f.lookup "high_24h")
  let low_24h ← jNum (f.lookup "low_24h")
  let change_24h_pct ← jNum (f.lookup "change_24h_pct")
  let vol24h_m ← jInt (f.lookup "vol24h_m")
  let range_position ← jNum (f.lookup "range_position")
  let dist_high_pct ← jNum (f.lookup "dist_high_pct")
  pure (price_now, high_24h, low_24h, change_24h_pct, vol24h_m,
        range_position, dist_high_pct)

/-- Parse the trade-plan and indicator fields of one published item. -/
def decodeItemPlan (f : List (String × JVal)) :
    Option (ℚ × ℚ × ℚ × ℚ × ℚ × ℚ × ℚ × ℚ) := do
  let entry ← jNum (f.lookup "entry")
  let sl ← jNum (f.lookup "sl")
  let tp1 ← jNum (f.lookup "tp1")
  let tp2 ← jNum (f.lookup "tp2")
  let rr ← jNum (f.lookup "rr")
  let short_prob ← jNum (f.lookup "short_prob")
  let short_conf ← jNum (f.lookup "short_conf")
  let candidate_pct ← jNum (f.lookup "candidate_pct")
  pure (entry, sl, tp1, tp2, rr, short_prob, short_conf, candidate_pct)

/-- Parse the gate flags and grade of one published item. -/
def decodeItemGates (f : List (String × JVal)) :
    Option (Bool × Bool × Bool × Bool × String) := do
  let gate0_passed ← jBool (f.lookup "gate0_passed")
  let gate1_passed ← jBool (f.lookup "gate1_passed")
  let gate2_passed ← jBool (f.lookup "gate2_passed")
  let gate3_passed ← jBool (f.lookup "gate3_passed")
  let grade ← jStr (f.lookup "grade")
  pure (gate0_passed, gate1_passed, gate2_passed, gate3_passed, grade)

/-- Parse one published item back from its JSON object. -/
def decodeItem : JVal → Option Item
  | .jobj f => do
    let (symbol, status, score, watch_type, signal) ← decodeItemHead f
    let (price_now, high_24h, low_24h, change_24h_pct, vol24h_m,
         range_position, dist_high_pct) ← decodeItemMarket f
    let (entry, sl, tp1, tp2, rr, short_prob, short_conf, candidate_pct) ←
      decodeItemPlan f
    let (gate0_passed, gate1_passed, gate2_passed, gate3_passed, grade) ←
      decodeItemGates f
    pure (Item.mk symbol status score watch_type signal price_now high_24h
      low_24h change_24h_pct vol24h_m range_position dist_high_pct
      entry sl tp1 tp2 rr short_prob short_conf candidate_pct
      gate0_passed gate1_passed gate2_passed gate3_passed grade)
  | _ => none

/-- Parse a list of published items back from their JSON objects. -/
def decodeItems : List JVal → Option (List Item)
  | [] => some []
  | j :: rest => do
    let it ← decodeItem j
    let tail ← decodeItems rest
    pure (it :: tail)

/-- Parse a whole bridge snapshot back from its JSON object. -/
def decodeSnapshot (payload : List (String × JVal)) : Option BridgeSnapshot := do
  let ts ← jInt (payload.lookup "ts")
  let bridge_version ← jStr (payload.lookup "bridge_version")
  let strategy ← jStr (payload.lookup "strategy")
  let top_n ← jInt (payload.lookup "top_n")
  let itemsJ ← jArr (payload.lookup "items")
  let items ← decodeItems itemsJ
  pure { ts, bridge_version, strategy, top_n, items }

/-! ## C8 — bridge write/read round trip and the payload fields -/

/-- Decoding inverts encoding for one published item. -/
theorem decodeItem_itemToJson (it : Item) :
    decodeItem (.jobj (itemToJson it)) = some it := by
  simp [decodeItem, itemToJson, decodeItemHead, decodeItemMarket, decodeItemPlan,
    decodeItemGates, jStr, jNum, jInt, jBool, List.lookup]

/-- Decoding inverts encoding for a list of published items. -/
theorem decodeItems_map (l : List Item) :
    decodeItems (l.map (fun it => JVal.jobj (itemToJson it))) = some l := by
  induction l with
  | nil => rfl
  | cons x xs ih => simp [decodeItems, decodeItem_itemToJson x, ih]

/-- C8 (amended): writing a bridge snapshot and reading it back yields the
very payload that was written, parsing it recovers every field (`ts`,
version string "2.0", strategy, `top_n` = number of published items, and
the ordered items list) exactly, and the payload carries exactly the keys
`ts`, `bridge_version`, `strategy`, `top_n`, `items` — the version key is
spelled `bridge_version`, not `version`. -/
theorem C8_roundtrip (rows : List (String × CoinRow)) (top_n : ℕ)
    (strategy : String) (ts : ℤ) :
    bridgeRead (bridgeWrite rows top_n strategy ts) =
      some (bridgePayload rows top_n strategy ts) ∧
    (bridgePayload rows top_n strategy ts).map Prod.fst =
      ["ts", "bridge_version", "strategy", "top_n", "items"] ∧
    decodeSnapshot (bridgePayload rows top_n strategy ts) =
      some ⟨ts, "2.0", strategy, ((bridgeItems rows top_n).length : ℤ),
            bridgeItems rows top_n⟩ := by
  refine ⟨rfl, by simp [bridgePayload], ?_⟩
  simp [decodeSnapshot, bridgePayload, jInt, jStr, jArr, List.lookup,
    decodeItems_map]

/-- C8 counterexample rows: a single valid row. -/
def c8Rows : List (String × CoinRow) :=
  [("AAAUSDT",
    { defaultCoinRow with symbol := "AAAUSDT", status := "Интерес", score := 65.5 })]

/-- C8 counterexample: the written payload has no field named `version` —
its keys are exactly `ts`, `bridge_version`, `strategy`, `top_n`, `items`,
so the claim's field list (which names `version`) does not match the
payload. -/
theorem C8_counterexample :
    "version" ∉ (bridgePayload c8Rows 30 "ShortExhaustion" 0).map Prod.fst ∧
    (bridgePayload c8Rows 30 "ShortExhaustion" 0).map Prod.fst =
      ["ts", "bridge_version", "strategy", "top_n", "items"] := by
  constructor <;> simp [bridgePayload]

/-! ## C6 — ranking order of the published top-N list -/

/-- `itemLe` is transitive. -/
theorem itemLe_trans : ∀ a b c : Item, itemLe a b → itemLe b c → itemLe a c := by
  intro a b c hab hbc
  simp only [itemLe, Bool.or_eq_true, Bool.and_eq_true, decide_eq_true_eq] at *
  rcases hab with h1 | ⟨h1, h2⟩ <;> rcases hbc with h3 | ⟨h3, h4⟩
  · exact Or.inl (h1.trans h3)
  · exact Or.inl (h3 ▸ h1)
  · exact Or.inl (h1 ▸ h3)
  · exact Or.inr ⟨h1.trans h3, h4.trans h2⟩

/-- `itemLe` is total. -/
theorem itemLe_total : ∀ a b : Item, itemLe a b || itemLe b a := by
  intro a b
  simp only [itemLe, Bool.or_eq_true, Bool.and_eq_true, decide_eq_true_eq]
  rcases lt_trichotomy (statusPriority a.status) (statusPriority b.status) with h | h | h
  · exact Or.inl (Or.inl h)
  · rcases le_total b.score a.score with hs | hs
    · exact Or.inl (Or.inr ⟨h, hs⟩)
    · exact Or.inr (Or.inr ⟨h.symm, hs⟩)
  · exact Or.inr (Or.inl h)

/-- C6 (amended): the published top-N list is ordered by status priority
ascending ("ВХОД" before "Готовность" before "Интерес" before
"Наблюдение" before ""), then by score descending; and the sort is stable
— items with equal status priority and equal score keep the order in
which the rows were supplied (dict insertion order), with no symbol
tiebreak. -/
theorem C6_ranking_order :
    (∀ (rows : List (String × CoinRow)) (top_n : ℕ),
      (bridgeItems rows top_n).Pairwise (fun a b => itemLe a b = true)) ∧
    (∀ (rows : List (String × CoinRow)) (p : ℕ) (sc : ℚ),
      (bridgeSortedItems rows).filter
          (fun it => decide (statusPriority it.status = p) && decide (it.score = sc)) =
        (bridgeEligibleItems rows).filter
          (fun it => decide (statusPriority it.status = p) && decide (it.score = sc))) := by
  constructor
  · intro rows top_n
    exact List.Pairwise.sublist (List.take_sublist _ _)
      (List.sorted_mergeSort itemLe_trans itemLe_total (bridgeEligibleItems rows))
  · intro rows p sc
    set pr : Item → Bool :=
      fun it => decide (statusPriority it.status = p) && decide (it.score = sc) with hpr
    have hmemkey : ∀ x, pr x = true →
        statusPriority x.status = p ∧ x.score = sc := by
      intro x hx
      simpa [hpr] using hx
    have hPW : ((bridgeEligibleItems rows).filter pr).Pairwise
        (fun a b => itemLe a b = true) := by
      apply List.pairwise_of_forall_mem_list
      intro x hx y hy
      obtain ⟨-, hxk⟩ := List.mem_filter.mp hx
      obtain ⟨-, hyk⟩ := List.mem_filter.mp hy
      obtain ⟨hx1, hx2⟩ := hmemkey x hxk
      obtain ⟨hy1, hy2⟩ := hmemkey y hyk
      simp only [itemLe, Bool.or_eq_true, Bool.and_eq_true, decide_eq_true_eq]
      exact Or.inr ⟨by rw [hx1, hy1], by rw [hx2, hy2]⟩
    have hsub : List.Sublist ((bridgeEligibleItems rows).filter pr)
        (bridgeEligibleItems rows) := List.filter_sublist _
    have hsub2 : List.Sublist ((bridgeEligibleItems rows).filter pr)
        (bridgeSortedItems rows) :=
      List.sublist_mergeSort itemLe_trans itemLe_total hPW hsub
    have hself : ((bridgeEligibleItems rows).filter pr).filter pr =
        (bridgeEligibleItems rows).filter pr :=
      List.filter_eq_self.mpr (fun a ha => (List.mem_filter.mp ha).2)
    have hsub3 : List.Sublist ((bridgeEligibleItems rows).filter pr)
        ((bridgeSortedItems rows).filter pr) := by
      have := hsub2.filter pr
      rwa [hself] at this
    have hperm : List.Perm ((bridgeSortedItems rows).filter pr)
        ((bridgeEligibleItems rows).filter pr) :=
      (List.mergeSort_perm (bridgeEligibleItems rows) itemLe).filter pr
    exact (hsub3.eq_of_length hperm.length_eq.symm).symm

/-- C6 counterexample rows: two valid rows with equal status "" and equal
score 0, supplied in non-lexical symbol order. -/
def c6Rows : List (String × CoinRow) :=
  [("BBBUSDT", { defaultCoinRow with symbol := "BBBUSDT" }),
   ("AAAUSDT", { defaultCoinRow with symbol := "AAAUSDT" })]

/-- C6 counterexample: two items with equal status and equal score are
published in their input (insertion) order "BBBUSDT", "AAAUSDT" — not in
the symbol lexical order "AAAUSDT", "BBBUSDT" the claim requires. -/
theorem C6_counterexample :
    (bridgeItems c6Rows 30).map Item.symbol = ["BBBUSDT", "AAAUSDT"] ∧
    (bridgeItems c6Rows 30).map Item.status = ["", ""] ∧
    (bridgeItems c6Rows 30).map Item.score = [0, 0] ∧
    (bridgeItems c6Rows 30).map Item.symbol ≠ ["AAAUSDT", "BBBUSDT"] := by
  have heq : bridgeEligibleItems c6Rows =
      [rowToDict { defaultCoinRow with symbol := "BBBUSDT" },
       rowToDict { defaultCoinRow with symbol := "AAAUSDT" }] := by
    simp [bridgeEligibleItems, c6Rows, defaultCoinRow]
  have hsorted : (bridgeEligibleItems c6Rows).Pairwise (fun a b => itemLe a b = true) := by
    rw [heq]
    refine List.Pairwise.cons ?_ (List.pairwise_singleton _ _)
    intro y hy
    simp only [List.mem_singleton] at hy
    subst hy
    simp [itemLe, statusPriority, rowToDict, defaultCoinRow]
  have hms : bridgeSortedItems c6Rows = bridgeEligibleItems c6Rows :=
    List.mergeSort_of_sorted hsorted
  refine ⟨?_, ?_, ?_, ?_⟩ <;>
    simp [bridgeItems, hms, heq, rowToDict, defaultCoinRow]

/-! ## Embedding of `main.py` `MainWindow._tick_all_levels` -/

/-- The scheduler state read and written by the one-second tick: the four
countdowns (`_full_countdown` 120 s, `_price_countdown` 30 s,
`_pump_countdown` 10 s, `_cand_countdown` 5 s), the per-tier in-progress
flags, and whether any rows are tracked (`self.rows` truthiness).  The
in-progress flags are set by the `_start_*` handlers and cleared when a
worker finishes; within one tick they are inputs. -/
structure ScanState where
  full_countdown : ℤ
  price_countdown : ℤ
  pump_countdown : ℤ
  cand_countdown : ℤ
  scan_in_progress : Bool
  price_update_in_progress : Bool
  pump_detect_in_progress : Bool
  cand_update_in_progress : Bool
  rows_nonempty : Bool

/-- Which tiers fired (called their `_start_*` handler) during one tick. -/
structure TickFired where
  level1 : Bool
  level2 : Bool
  level3 : Bool
  candidates : Bool

/-- One tier's block in `_tick_all_levels`: when its gate condition holds,
decrement the countdown and fire (resetting to the period) when it
reaches zero; otherwise leave the countdown untouched. -/
def tierStep (cd period : ℤ) (gate : Bool) : ℤ × Bool :=
  if gate then
    let c := cd - 1
    if c ≤ 0 then (period, true) else (c, false)
  else (cd, false)

/-- `main.py` `_tick_all_levels` (lines 736–779): Level 3 (pump detector,
10 s), then Level 2 (price refresh, 30 s, also gated on no full scan in
progress), then Level 1 (full recompute, 120 s) which on fire resets the
Level-2 and Level-3 countdowns to 30 and 10, then the candidates update
(5 s) — which already sees the `scan_in_progress` flag set synchronously
by `_start_scan` when Level 1 fired this tick. -/
def tickAllLevels (s : ScanState) : ScanState × TickFired :=
  let pump := tierStep s.pump_countdown 10 (!s.pump_detect_in_progress && s.rows_nonempty)
  let price := tierStep s.price_countdown 30
    (!s.price_update_in_progress && !s.scan_in_progress && s.rows_nonempty)
  let full := tierStep s.full_countdown 120 (!s.scan_in_progress)
  let price2 := if full.2 then (30 : ℤ) else price.1
  let pump2 := if full.2 then (10 : ℤ) else pump.1
  let scanIp := s.scan_in_progress || full.2
  let cand := tierStep s.cand_countdown 5
    (!scanIp && !s.cand_update_in_progress && s.rows_nonempty)
  ({ s with full_countdown := full.1, price_countdown := price2,
            pump_countdown := pump2, cand_countdown := cand.1 },
   ⟨full.2, price.2, pump.2, cand.2⟩)

/-! ## C7 — tick decrements, fire-at-zero, and the Tier-1 reset -/

/-- C7: in the one-second tick each tier decrements its own countdown and
fires when it reaches zero (the `tierStep` closed forms, each mentioning
only that tier's own countdown, gate flags and period); when Tier 1 fires,
the Tier 2 and Tier 3 countdowns are reset to their full periods (30 s and
10 s) at that same tick; and no other tier's firing resets or blocks
another tier's countdown — Tier 2's and Tier 3's firing and (when Tier 1
does not fire) countdowns are functions of their own state alone. -/
theorem C7_scheduler_tick (s : ScanState) :
    ((tickAllLevels s).1.full_countdown, (tickAllLevels s).2.level1) =
      tierStep s.full_countdown 120 (!s.scan_in_progress) ∧
    ((tickAllLevels s).2.level1 = true →
      (tickAllLevels s).1.full_countdown = 120 ∧
      (tickAllLevels s).1.price_countdown = 30 ∧
      (tickAllLevels s).1.pump_countdown = 10) ∧
    ((tickAllLevels s).2.level2 = (tierStep s.price_countdown 30
        (!s.price_update_in_progress && !s.scan_in_progress && s.rows_nonempty)).2) ∧
    ((tickAllLevels s).2.level3 = (tierStep s.pump_countdown 10
        (!s.pump_detect_in_progress && s.rows_nonempty)).2) ∧
    ((tickAllLevels s).2.level1 = false →
      (tickAllLevels s).1.price_countdown = (tierStep s.price_countdown 30
          (!s.price_update_in_progress && !s.scan_in_progress && s.rows_nonempty)).1 ∧
      (tickAllLevels s).1.pump_countdown = (tierStep s.pump_countdown 10
          (!s.pump_detect_in_progress && s.rows_nonempty)).1) := by
  simp only [tickAllLevels, tierStep]
  split_ifs <;> simp_all

/-- C7 witness: a tick at which Tier 1's countdown reaches zero (no tier
in progress, rows tracked) — Tier 1 fires and the countdowns come back as
120 / 30 / 10. -/
theorem C7_witness :
    (tickAllLevels ⟨1, 17, 3, 5, false, false, false, false, true⟩).2.level1 = true ∧
    (tickAllLevels ⟨1, 17, 3, 5, false, false, false, false, true⟩).1.full_countdown = 120 ∧
    (tickAllLevels ⟨1, 17, 3, 5, false, false, false, false, true⟩).1.price_countdown = 30 ∧
    (tickAllLevels ⟨1, 17, 3, 5, false, false, false, false, true⟩).1.pump_countdown = 10 := by
  have h1 : (tickAllLevels ⟨1, 17, 3, 5, false, false, false, false, true⟩).2.level1 = true := by
    norm_num [tickAllLevels, tierStep]
  have h := (C7_scheduler_tick ⟨1, 17, 3, 5, false, false, false, false, true⟩).2.1 h1
  exact ⟨h1, h.1, h.2.1, h.2.2⟩
